import Mathlib

/-!
# Resource reconciliation of terraform-provider-dokploy

A shallow embedding of `internal/provider/resource_environment_variables.go` and
`internal/provider/resource_database.go`, followed by theorems about it.

Conventions of the embedding:

* a Go `map[string]string` is an association list with pairwise distinct keys
  (`GoMap`); a `range` loop over a map visits the entries in the order of that list.
  Go leaves the order unspecified, and every list order is covered because the
  theorems quantify over all such lists;
* a Go `[]string` is `Option (List String)`, `none` being the nil slice;
* a value of the plugin framework (`types.String`, `types.Bool`, `types.Int64`,
  `types.List`) is null, unknown or known (`TfValue`);
* a remote call is a field of `DokployClient`; every operation returns, next to the
  response it fills in, the list of remote calls it issued, in order.
-/

/-! ## Go maps -/

/-- Go `map[string]string`, as a map that is not nil. Where the nil map behaves
differently from the empty one and the code can meet it (the result of
`client.ParseEnv`, handed to `types.MapValueFrom`), the type is `Option GoMap`. -/
abbrev GoMap := AList (fun _ : String => String)

namespace GoMap

/-- The map index expression `m[k]` in its comma-ok form. -/
def get (m : GoMap) (k : String) : Option String := m.lookup k

/-- The assignment `m[k] = v`. -/
def set (m : GoMap) (k v : String) : GoMap := m.insert k v

/-- The builtin `delete(m, k)`. -/
def delete (m : GoMap) (k : String) : GoMap := m.erase k

/-- The loop `for k := range m { delete(m, k) }`: the loop removes only the key it
is visiting, so every key present on entry is visited once. -/
def clear (m : GoMap) : GoMap := m.keys.foldl (fun acc k => acc.delete k) m

/-- The loop `for k, v := range envMap { m[k] = v }`. -/
def assignAll (envMap m : GoMap) : GoMap :=
  envMap.entries.foldl (fun acc e => acc.set e.1 e.2) m

/-- Build a map from a literal list of pairs, as a Go map literal does. -/
def ofPairs (l : List (String × String)) : GoMap :=
  l.foldl (fun acc e => acc.set e.1 e.2) ∅

end GoMap

namespace EnvironmentVariablesResource

/-- The function literal that `Create` passes to `UpdateApplicationEnv`
(resource_environment_variables.go, lines 89-93). -/
def createApply (envMap : GoMap) (m : GoMap) : GoMap :=
  GoMap.assignAll envMap m

/-- The function literal that `Update` passes to `UpdateApplicationEnv`
(resource_environment_variables.go, lines 152-160). -/
def updateApply (envMap : GoMap) (m : GoMap) : GoMap :=
  GoMap.assignAll envMap (GoMap.clear m)

/-- The function literal that `Delete` passes to `UpdateApplicationEnv`
(resource_environment_variables.go, lines 181-185). -/
def deleteApply (m : GoMap) : GoMap :=
  GoMap.clear m

end EnvironmentVariablesResource

/-! ## Go slices and strings -/

/-- Go `[]string`; `none` is the nil slice. -/
abbrev GoSlice := Option (List String)

/-- The builtin `len` on a `[]string`: the nil slice has length zero. -/
def GoSlice.len : GoSlice → Nat
  | none => 0
  | some l => l.length

/-- Whether `sub` occurs in `s` as a contiguous block, scanning `s` from the left. -/
def hasSubstr (sub : List Char) : List Char → Bool
  | [] => sub.isPrefixOf []
  | c :: t => sub.isPrefixOf (c :: t) || hasSubstr sub t

/-- Go `strings.Contains(s, substr)`. Go compares bytes; on well-formed UTF-8 text an
occurrence of bytes is an occurrence of characters, which is what is compared here. -/
def strings.Contains (s substr : String) : Bool := hasSubstr substr.data s.data

/-- The test both resources apply to a remote error text to recognise a missing
object: `strings.Contains(err.Error(), "Not Found") || strings.Contains(err.Error(), "404")`. -/
def isNotFound (err : String) : Bool :=
  strings.Contains err "Not Found" || strings.Contains err "404"

/-! ## Values and diagnostics of the plugin framework -/

/-- An attribute value of terraform-plugin-framework: null, unknown, or known. -/
inductive TfValue (α : Type) where
  | null
  | unknown
  | known (v : α)
  deriving DecidableEq, Repr

/-- Framework type `types.String`. -/
abbrev TfString := TfValue String
/-- Framework type `types.Bool`. -/
abbrev TfBool := TfValue Bool
/-- Framework type `types.Int64`. -/
abbrev TfInt64 := TfValue Int
/-- Framework type `types.List` with string elements. -/
abbrev TfList := TfValue (List TfString)
/-- Framework type `types.Map` with string elements. -/
abbrev TfMap := TfValue (AList (fun _ : String => TfString))

namespace TfValue

/-- Method `IsNull`. -/
def IsNull {α : Type} : TfValue α → Bool
  | null => true
  | _ => false

/-- Method `IsUnknown`. -/
def IsUnknown {α : Type} : TfValue α → Bool
  | unknown => true
  | _ => false

/-- Method `ValueString`: the empty string unless the value is known. -/
def ValueString : TfString → String
  | known v => v
  | _ => ""

/-- Method `ValueBool`: false unless the value is known. -/
def ValueBool : TfBool → Bool
  | known v => v
  | _ => false

/-- Method `ValueInt64`: zero unless the value is known. -/
def ValueInt64 : TfInt64 → Int
  | known v => v
  | _ => 0

/-- Method `ValueBoolPointer`: nil for null, otherwise a pointer to the stored
boolean (false when unknown). -/
def ValueBoolPointer : TfBool → Option Bool
  | null => none
  | unknown => some false
  | known v => some v

end TfValue

/-- Constructor `types.StringValue`. -/
def types.StringValue (s : String) : TfString := TfValue.known s

/-- Constructor `types.Int64Value`. -/
def types.Int64Value (n : Int) : TfInt64 := TfValue.known n

/-- Constructor `types.ListNull(types.StringType)`. -/
def types.ListNull : TfList := TfValue.null

/-- Severity of a diagnostic. -/
inductive Severity where
  | Error
  | Warning
  deriving DecidableEq, Repr

/-- One entry of `diag.Diagnostics`. -/
structure Diagnostic where
  severity : Severity
  summary : String
  detail : String
  deriving DecidableEq, Repr

/-- Framework type `diag.Diagnostics`. -/
abbrev Diagnostics := List Diagnostic

namespace Diagnostics

/-- Method `Append`: a diagnostic already in the collection is not added again. -/
def Append (diags : Diagnostics) (more : List Diagnostic) : Diagnostics :=
  more.foldl (fun acc d => if d ∈ acc then acc else acc ++ [d]) diags

/-- Method `AddError`. -/
def AddError (diags : Diagnostics) (summary detail : String) : Diagnostics :=
  diags.Append [⟨Severity.Error, summary, detail⟩]

/-- Method `AddWarning`. -/
def AddWarning (diags : Diagnostics) (summary detail : String) : Diagnostics :=
  diags.Append [⟨Severity.Warning, summary, detail⟩]

/-- Method `HasError`. -/
def HasError (diags : Diagnostics) : Bool :=
  diags.any (fun d => d.severity = Severity.Error)

end Diagnostics

/-- The diagnostic with which the framework's reflection refuses a value it cannot
store in the Go target (an unknown collection, or a null or unknown element decoded
into a Go `string`). Its summary is the framework's; the detail text is left out. -/
def conversionError : Diagnostic := ⟨Severity.Error, "Value Conversion Error", ""⟩

/-- Decode the elements of a known list into Go strings: each must be known. -/
def decodeElements : List TfString → Option (List String)
  | [] => some []
  | TfValue.known v :: t => (decodeElements t).map (fun l => v :: l)
  | _ :: _ => none

/-- Framework method `types.List.ElementsAs(ctx, &args, false)` for a `[]string`
target: a null list gives the nil slice, an unknown list is an error, a known list
gives the slice of its elements provided each of them is known. -/
def TfList.ElementsAs : TfList → Except Diagnostics GoSlice
  | TfValue.null => Except.ok none
  | TfValue.unknown => Except.error [conversionError]
  | TfValue.known elems =>
    match decodeElements elems with
    | some l => Except.ok (some l)
    | none => Except.error [conversionError]

/-- Framework method `types.Map.ElementsAs(ctx, &envMap, false)` for a
`map[string]string` target: a null map gives the nil map (which ranges over nothing,
like the empty map), an unknown map is an error, a known map gives the map of its
elements provided each of them is known. -/
def TfMap.ElementsAs : TfMap → Except Diagnostics GoMap
  | TfValue.null => Except.ok ∅
  | TfValue.unknown => Except.error [conversionError]
  | TfValue.known elems =>
    elems.entries.foldr
      (fun e acc =>
        match e.2, acc with
        | TfValue.known v, Except.ok m => Except.ok (m.set e.1 v)
        | _, Except.error d => Except.error d
        | _, Except.ok _ => Except.error [conversionError])
      (Except.ok ∅)

/-- Framework function `types.MapValueFrom(ctx, types.StringType, envMap)` on a Go
`map[string]string`: the null map for the nil map (`none`), and otherwise the known map
whose elements are the known strings of `envMap`; it reports no diagnostic. -/
def types.MapValueFrom : Option GoMap → TfMap
  | none => TfValue.null
  | some envMap =>
    TfValue.known (envMap.entries.foldr (fun e acc => acc.insert e.1 (TfValue.known e.2)) ∅)

/-! ## The remote API client -/

/-- Modelled from the spec: the record `client.Database` (the RemoteState of a
database) is declared in the client package, which is not among the sources; the
fields are those that `setModelFromDatabase` reads (`Type` is written `Type_`). -/
structure Database where
  ID : String
  Type_ : String
  Name : String
  AppName : String
  Description : String
  DatabaseName : String
  DatabaseUser : String
  DockerImage : String
  ExternalPort : Int
  ServerID : String
  ApplicationStatus : String
  Env : String
  MemoryReservation : String
  MemoryLimit : String
  CPUReservation : String
  CPULimit : String
  Command : String
  Replicas : Int
  StopGracePeriodSwarm : Int
  Args : GoSlice
  deriving DecidableEq, Repr

/-- Modelled from the spec: the record `client.Application` is declared in the client
package, which is not among the sources; `Env` is the one field the provider reads. -/
structure Application where
  Env : String
  deriving DecidableEq, Repr

/-- The thirteen arguments of `client.CreateDatabase`, in the order of the call in
`DatabaseResource.Create`. -/
structure CreateDatabaseArgs where
  environmentID : String
  dbType : String
  appName : String
  name : String
  description : String
  databaseName : String
  databaseUser : String
  databasePassword : String
  databaseRootPassword : String
  dockerImage : String
  serverID : String
  replicaSets : Bool
  args : GoSlice
  deriving DecidableEq, Repr

/-- The twenty-two arguments of `client.UpdateDatabase`, in the order of the call in
`DatabaseResource.Update`. -/
structure UpdateDatabaseArgs where
  id : String
  dbType : String
  name : String
  appName : String
  description : String
  databaseName : String
  databaseUser : String
  databasePassword : String
  databaseRootPassword : String
  dockerImage : String
  serverID : String
  replicaSets : Bool
  env : String
  memoryReservation : String
  memoryLimit : String
  cpuReservation : String
  cpuLimit : String
  command : String
  applicationStatus : String
  replicas : Int
  stopGracePeriod : Int
  args : GoSlice
  deriving DecidableEq, Repr

/-- Modelled from the spec: `client.DokployClient` is not among the sources. Each
method is a parameter: it returns a result or an error text (`err.Error()`); a method
returning only `error` returns `none` for nil. An operation calls each method at
most once, so a function per method describes any remote behaviour during it. -/
structure DokployClient where
  CreateDatabase : CreateDatabaseArgs → Except String Database
  GetDatabase : String → String → Except String Database
  UpdateDatabase : UpdateDatabaseArgs → Except String Database
  DeployDatabase : String → String → Option String
  DeleteDatabaseWithType : String → String → Option String
  GetApplication : String → Except String Application
  UpdateApplicationEnv : String → (GoMap → GoMap) → Option Bool → Option String

/-- A remote call issued by an operation, with the arguments it was given. -/
inductive RemoteCall where
  | CreateDatabase (a : CreateDatabaseArgs)
  | GetDatabase (id dbType : String)
  | UpdateDatabase (a : UpdateDatabaseArgs)
  | DeployDatabase (id dbType : String)
  | DeleteDatabaseWithType (id dbType : String)
  | GetApplication (id : String)
  | UpdateApplicationEnv (id : String) (apply : GoMap → GoMap) (createEnvFile : Option Bool)

/-- What an operation leaves behind: the state in its response (`none` when the
response holds no resource: never set, or removed by `RemoveResource`), the
diagnostics of the response, and the remote calls issued. -/
structure Outcome (σ : Type) where
  State : Option σ
  Diagnostics : Diagnostics
  Calls : List RemoteCall

/-! ## The database resource -/

/-- Go struct `DatabaseResourceModel`; the field `Type` is written `Type_`. -/
structure DatabaseResourceModel where
  ID : TfString
  EnvironmentID : TfString
  Type_ : TfString
  Name : TfString
  AppName : TfString
  Description : TfString
  DatabaseName : TfString
  DatabaseUser : TfString
  DatabasePassword : TfString
  DatabaseRootPassword : TfString
  DockerImage : TfString
  ExternalPort : TfInt64
  ServerID : TfString
  ApplicationStatus : TfString
  ReplicaSets : TfBool
  Env : TfString
  MemoryReservation : TfString
  MemoryLimit : TfString
  CPUReservation : TfString
  CPULimit : TfString
  Command : TfString
  Args : TfList
  Replicas : TfInt64
  StopGracePeriod : TfInt64
  RedeployOnUpdate : TfBool
  deriving DecidableEq, Repr

namespace DatabaseResource

/-- Method `setModelFromDatabase` (resource_database.go, lines 332-356); the model is
updated in place in Go and returned here. -/
def setModelFromDatabase (model : DatabaseResourceModel) (db : Database) :
    DatabaseResourceModel :=
  let model := { model with ID := types.StringValue db.ID }
  let model := { model with Type_ := types.StringValue db.Type_ }
  let model := { model with Name := types.StringValue db.Name }
  let model := { model with AppName := types.StringValue db.AppName }
  let model := { model with Description := types.StringValue db.Description }
  let model := { model with DatabaseName := types.StringValue db.DatabaseName }
  let model := { model with DatabaseUser := types.StringValue db.DatabaseUser }
  let model := { model with DockerImage := types.StringValue db.DockerImage }
  let model := { model with ExternalPort := types.Int64Value db.ExternalPort }
  let model := { model with ServerID := types.StringValue db.ServerID }
  let model := { model with ApplicationStatus := types.StringValue db.ApplicationStatus }
  let model := { model with Env := types.StringValue db.Env }
  let model := { model with MemoryReservation := types.StringValue db.MemoryReservation }
  let model := { model with MemoryLimit := types.StringValue db.MemoryLimit }
  let model := { model with CPUReservation := types.StringValue db.CPUReservation }
  let model := { model with CPULimit := types.StringValue db.CPULimit }
  let model := { model with Command := types.StringValue db.Command }
  let model := { model with Replicas := types.Int64Value db.Replicas }
  let model := { model with StopGracePeriod := types.Int64Value db.StopGracePeriodSwarm }
  if db.Args = none || db.Args.len = 0 then
    { model with Args := types.ListNull }
  else
    model

/-- The argument list of the call `r.client.CreateDatabase(...)` in `Create`
(resource_database.go, lines 196-210). -/
def createDatabaseArgs (plan : DatabaseResourceModel) (dbType appName : String)
    (args : GoSlice) : CreateDatabaseArgs :=
  { environmentID := plan.EnvironmentID.ValueString
    dbType := dbType
    appName := appName
    name := plan.Name.ValueString
    description := plan.Description.ValueString
    databaseName := plan.DatabaseName.ValueString
    databaseUser := plan.DatabaseUser.ValueString
    databasePassword := plan.DatabasePassword.ValueString
    databaseRootPassword := plan.DatabaseRootPassword.ValueString
    dockerImage := plan.DockerImage.ValueString
    serverID := plan.ServerID.ValueString
    replicaSets := plan.ReplicaSets.ValueBool
    args := args }

/-- The argument list of the call `r.client.UpdateDatabase(...)` in `Update`
(resource_database.go, lines 269-292). -/
def updateDatabaseArgs (plan : DatabaseResourceModel) (dbType : String)
    (args : GoSlice) : UpdateDatabaseArgs :=
  { id := plan.ID.ValueString
    dbType := dbType
    name := plan.Name.ValueString
    appName := plan.AppName.ValueString
    description := plan.Description.ValueString
    databaseName := plan.DatabaseName.ValueString
    databaseUser := plan.DatabaseUser.ValueString
    databasePassword := plan.DatabasePassword.ValueString
    databaseRootPassword := plan.DatabaseRootPassword.ValueString
    dockerImage := plan.DockerImage.ValueString
    serverID := plan.ServerID.ValueString
    replicaSets := plan.ReplicaSets.ValueBool
    env := plan.Env.ValueString
    memoryReservation := plan.MemoryReservation.ValueString
    memoryLimit := plan.MemoryLimit.ValueString
    cpuReservation := plan.CPUReservation.ValueString
    cpuLimit := plan.CPULimit.ValueString
    command := plan.Command.ValueString
    applicationStatus := plan.ApplicationStatus.ValueString
    replicas := plan.Replicas.ValueInt64
    stopGracePeriod := plan.StopGracePeriod.ValueInt64
    args := args }

/-- Method `Create` (resource_database.go, lines 173-219). The plan of the request is
given decoded: every field of the model is a framework value, so `req.Plan.Get`
reports nothing, and neither does `resp.State.Set` of such a model, here and in the
other methods. The response starts with no state and no diagnostics. -/
def Create (client : DokployClient) (plan : DatabaseResourceModel) :
    Outcome DatabaseResourceModel :=
  let dbType := plan.Type_.ValueString
  let appName := plan.Name.ValueString
  let appName :=
    if !plan.AppName.IsNull && !plan.AppName.IsUnknown then plan.AppName.ValueString
    else appName
  let decoded : Except Diagnostics GoSlice :=
    if !plan.Args.IsNull && !plan.Args.IsUnknown then TfList.ElementsAs plan.Args
    else Except.ok none
  match decoded with
  | Except.error diags =>
    { State := none, Diagnostics := Diagnostics.Append [] diags, Calls := [] }
  | Except.ok args =>
    let a := createDatabaseArgs plan dbType appName args
    match client.CreateDatabase a with
    | Except.error err =>
      { State := none
        Diagnostics := Diagnostics.AddError [] "Error creating database" err
        Calls := [RemoteCall.CreateDatabase a] }
    | Except.ok database =>
      let plan := setModelFromDatabase plan database
      { State := some plan, Diagnostics := [], Calls := [RemoteCall.CreateDatabase a] }

/-- Method `Read` (resource_database.go, lines 221-243). The response starts with the
state of the request and no diagnostics. -/
def Read (client : DokployClient) (state : DatabaseResourceModel) :
    Outcome DatabaseResourceModel :=
  let calls := [RemoteCall.GetDatabase state.ID.ValueString state.Type_.ValueString]
  match client.GetDatabase state.ID.ValueString state.Type_.ValueString with
  | Except.error err =>
    if strings.Contains err "Not Found" || strings.Contains err "404" then
      { State := none, Diagnostics := [], Calls := calls }
    else
      { State := some state
        Diagnostics := Diagnostics.AddError [] "Error reading database" err
        Calls := calls }
  | Except.ok db =>
    let state := setModelFromDatabase state db
    { State := some state, Diagnostics := [], Calls := calls }

/-- Method `Update` (resource_database.go, lines 245-308). The response starts with
the prior state and no diagnostics. The model reconciled from the plan is computed
and the value handed to `resp.State.Set` is `state`, as in the source. -/
def Update (client : DokployClient) (plan state : DatabaseResourceModel) :
    Outcome DatabaseResourceModel :=
  let dbType := plan.Type_.ValueString
  match TfList.ElementsAs plan.Args with
  | Except.error diags =>
    { State := some state, Diagnostics := Diagnostics.Append [] diags, Calls := [] }
  | Except.ok args =>
    let a := updateDatabaseArgs plan dbType args
    match client.UpdateDatabase a with
    | Except.error err =>
      { State := some state
        Diagnostics := Diagnostics.AddError [] "Error updating database" err
        Calls := [RemoteCall.UpdateDatabase a] }
    | Except.ok db =>
      let deployed : Diagnostics × List RemoteCall :=
        if plan.RedeployOnUpdate.ValueBool then
          match client.DeployDatabase plan.ID.ValueString dbType with
          | some err =>
            (Diagnostics.AddWarning [] "Database updated but redeploy failed" err,
              [RemoteCall.DeployDatabase plan.ID.ValueString dbType])
          | none => ([], [RemoteCall.DeployDatabase plan.ID.ValueString dbType])
        else ([], [])
      let _plan := setModelFromDatabase plan db
      { State := some state
        Diagnostics := deployed.1
        Calls := RemoteCall.UpdateDatabase a :: deployed.2 }

/-- Method `Delete` (resource_database.go, lines 310-326). The method does not touch
the state of the response, which starts as the prior state. -/
def Delete (client : DokployClient) (state : DatabaseResourceModel) :
    Outcome DatabaseResourceModel :=
  let calls :=
    [RemoteCall.DeleteDatabaseWithType state.ID.ValueString state.Type_.ValueString]
  match client.DeleteDatabaseWithType state.ID.ValueString state.Type_.ValueString with
  | some err =>
    if strings.Contains err "Not Found" || strings.Contains err "404" then
      { State := some state, Diagnostics := [], Calls := calls }
    else
      { State := some state
        Diagnostics := Diagnostics.AddError [] "Error deleting database" err
        Calls := calls }
  | none => { State := some state, Diagnostics := [], Calls := calls }

end DatabaseResource

/-! ## The environment-variables resource -/

/-- Go struct `EnvironmentVariablesResourceModel`. -/
structure EnvironmentVariablesResourceModel where
  ID : TfString
  ApplicationID : TfString
  Variables : TfMap
  CreateEnvFile : TfBool
  deriving DecidableEq

namespace EnvironmentVariablesResource

/-- Method `Create` (resource_environment_variables.go, lines 74-104). -/
def Create (client : DokployClient) (plan : EnvironmentVariablesResourceModel) :
    Outcome EnvironmentVariablesResourceModel :=
  match TfMap.ElementsAs plan.Variables with
  | Except.error diags =>
    { State := none, Diagnostics := Diagnostics.Append [] diags, Calls := [] }
  | Except.ok envMap =>
    let calls :=
      [RemoteCall.UpdateApplicationEnv plan.ApplicationID.ValueString (createApply envMap)
        plan.CreateEnvFile.ValueBoolPointer]
    match client.UpdateApplicationEnv plan.ApplicationID.ValueString (createApply envMap)
        plan.CreateEnvFile.ValueBoolPointer with
    | some err =>
      { State := none
        Diagnostics := Diagnostics.AddError [] "Error creating environment variables" err
        Calls := calls }
    | none =>
      let plan := { plan with ID := plan.ApplicationID }
      { State := some plan, Diagnostics := [], Calls := calls }

/-- Method `Read` (resource_environment_variables.go, lines 106-133). The function
`client.ParseEnv` is not among the sources and is the parameter `ParseEnv`; the map it
returns may be nil (`none`). -/
def Read (ParseEnv : String → Option GoMap) (client : DokployClient)
    (state : EnvironmentVariablesResourceModel) : Outcome EnvironmentVariablesResourceModel :=
  let calls := [RemoteCall.GetApplication state.ApplicationID.ValueString]
  match client.GetApplication state.ApplicationID.ValueString with
  | Except.error err =>
    if strings.Contains err "Not Found" || strings.Contains err "404" then
      { State := none, Diagnostics := [], Calls := calls }
    else
      { State := some state
        Diagnostics := Diagnostics.AddError [] "Error reading application" err
        Calls := calls }
  | Except.ok app =>
    let envMap := ParseEnv app.Env
    let state := { state with Variables := types.MapValueFrom envMap }
    { State := some state, Diagnostics := [], Calls := calls }

/-- Method `Update` (resource_environment_variables.go, lines 135-171). -/
def Update (client : DokployClient) (plan state : EnvironmentVariablesResourceModel) :
    Outcome EnvironmentVariablesResourceModel :=
  match TfMap.ElementsAs plan.Variables with
  | Except.error diags =>
    { State := some state, Diagnostics := Diagnostics.Append [] diags, Calls := [] }
  | Except.ok envMap =>
    let calls :=
      [RemoteCall.UpdateApplicationEnv plan.ApplicationID.ValueString (updateApply envMap)
        plan.CreateEnvFile.ValueBoolPointer]
    match client.UpdateApplicationEnv plan.ApplicationID.ValueString (updateApply envMap)
        plan.CreateEnvFile.ValueBoolPointer with
    | some err =>
      { State := some state
        Diagnostics := Diagnostics.AddError [] "Error updating environment variables" err
        Calls := calls }
    | none =>
      let plan := { plan with ID := plan.ApplicationID }
      { State := some plan, Diagnostics := [], Calls := calls }

/-- Method `Delete` (resource_environment_variables.go, lines 173-194). -/
def Delete (client : DokployClient) (state : EnvironmentVariablesResourceModel) :
    Outcome EnvironmentVariablesResourceModel :=
  let calls :=
    [RemoteCall.UpdateApplicationEnv state.ApplicationID.ValueString deleteApply
      state.CreateEnvFile.ValueBoolPointer]
  match client.UpdateApplicationEnv state.ApplicationID.ValueString deleteApply
      state.CreateEnvFile.ValueBoolPointer with
  | some err =>
    if strings.Contains err "Not Found" || strings.Contains err "404" then
      { State := some state, Diagnostics := [], Calls := calls }
    else
      { State := some state
        Diagnostics := Diagnostics.AddError [] "Error deleting environment variables" err
        Calls := calls }
  | none => { State := some state, Diagnostics := [], Calls := calls }

/-- Method `ImportState` (resource_environment_variables.go, lines 196-198):
`ImportStatePassthroughID` stores the identifier of the request under
`application_id` in a state whose other attributes are null. -/
def ImportState (id : String) : EnvironmentVariablesResourceModel :=
  { ID := TfValue.null
    ApplicationID := types.StringValue id
    Variables := TfValue.null
    CreateEnvFile := TfValue.null }

end EnvironmentVariablesResource

/-! ## Sample inputs

The values follow the configuration of the acceptance test `TestAccDatabaseResource`. -/

/-- The state tracked after the first step of the acceptance test: a postgres
database named `test-postgres-db`. -/
def sampleState : DatabaseResourceModel :=
  { ID := TfValue.known "db-1"
    EnvironmentID := TfValue.known "env-1"
    Type_ := TfValue.known "postgres"
    Name := TfValue.known "test-postgres-db"
    AppName := TfValue.known "test-postgres-db"
    Description := TfValue.known "Test PostgreSQL database"
    DatabaseName := TfValue.known "testdb"
    DatabaseUser := TfValue.known "postgres"
    DatabasePassword := TfValue.known "testpassword123"
    DatabaseRootPassword := TfValue.null
    DockerImage := TfValue.known "postgres:15"
    ExternalPort := TfValue.null
    ServerID := TfValue.null
    ApplicationStatus := TfValue.known "idle"
    ReplicaSets := TfValue.null
    Env := TfValue.null
    MemoryReservation := TfValue.null
    MemoryLimit := TfValue.null
    CPUReservation := TfValue.null
    CPULimit := TfValue.null
    Command := TfValue.null
    Args := TfValue.known [TfValue.known "--max-connections=100"]
    Replicas := TfValue.null
    StopGracePeriod := TfValue.null
    RedeployOnUpdate := TfValue.known false }

/-- The plan of the second step of the acceptance test: the same database renamed
to `test-postgres-db-updated`. -/
def samplePlan : DatabaseResourceModel :=
  { sampleState with
    Name := TfValue.known "test-postgres-db-updated"
    AppName := TfValue.known "test-postgres-db-updated" }

/-- The plan `samplePlan` with `redeploy_on_update = true`. -/
def sampleRedeployPlan : DatabaseResourceModel :=
  { samplePlan with RedeployOnUpdate := TfValue.known true }

/-- A plan that sets neither `app_name` nor `args`. -/
def sampleBarePlan : DatabaseResourceModel :=
  { sampleState with
    ID := TfValue.unknown
    AppName := TfValue.unknown
    ApplicationStatus := TfValue.unknown
    Args := TfValue.null }

/-- A plan that sets `args = []` and no `app_name`. -/
def sampleEmptyArgsPlan : DatabaseResourceModel :=
  { sampleBarePlan with Args := TfValue.known [] }

/-- A RemoteState carrying the given display name, without arguments. -/
def sampleDatabase (name : String) : Database :=
  { ID := "db-1"
    Type_ := "postgres"
    Name := name
    AppName := name
    Description := "Test PostgreSQL database"
    DatabaseName := "testdb"
    DatabaseUser := "postgres"
    DockerImage := "postgres:15"
    ExternalPort := 0
    ServerID := ""
    ApplicationStatus := "idle"
    Env := ""
    MemoryReservation := ""
    MemoryLimit := ""
    CPUReservation := ""
    CPULimit := ""
    Command := ""
    Replicas := 1
    StopGracePeriodSwarm := 0
    Args := none }

/-- A remote whose database calls answer with the given results, whatever their
arguments. -/
def sampleClient (created fetched updated : Except String Database)
    (deployed deleted : Option String) : DokployClient :=
  { CreateDatabase := fun _ => created
    GetDatabase := fun _ _ => fetched
    UpdateDatabase := fun _ => updated
    DeployDatabase := fun _ _ => deployed
    DeleteDatabaseWithType := fun _ _ => deleted
    GetApplication := fun _ => Except.ok { Env := "" }
    UpdateApplicationEnv := fun _ _ _ => none }

/-- A tracked environment-variable set of application `app-1`, as `Create` leaves it. -/
def sampleEnvState : EnvironmentVariablesResourceModel :=
  { ID := TfValue.known "app-1"
    ApplicationID := TfValue.known "app-1"
    Variables := TfValue.known
      (AList.insert "OLD" (TfValue.known "stale") (∅ : AList (fun _ : String => TfString)))
    CreateEnvFile := TfValue.known false }

/-- A remote whose application calls answer with the given results, whatever their
arguments. -/
def sampleEnvClient (fetched : Except String Application) (updated : Option String) :
    DokployClient :=
  { CreateDatabase := fun _ => Except.error ""
    GetDatabase := fun _ _ => Except.error ""
    UpdateDatabase := fun _ => Except.error ""
    DeployDatabase := fun _ _ => none
    DeleteDatabaseWithType := fun _ _ => none
    GetApplication := fun _ => fetched
    UpdateApplicationEnv := fun _ _ _ => updated }

/-- A stand-in for `client.ParseEnv` on the texts the samples use: the block
`FOO=bar` decodes to `{FOO: bar}`, any other text to the nil map. -/
def sampleParseEnv (env : String) : Option GoMap :=
  if env = "FOO=bar" then some (GoMap.ofPairs [("FOO", "bar")]) else none

/-- A plan for the environment-variable set of application `app-1` whose `variables`
is the one-entry mapping `{key: value}`. -/
def sampleEnvPlan (key value : String) : EnvironmentVariablesResourceModel :=
  { ID := TfValue.unknown
    ApplicationID := TfValue.known "app-1"
    Variables := TfValue.known
      (AList.insert key (TfValue.known value) (∅ : AList (fun _ : String => TfString)))
    CreateEnvFile := TfValue.known true }

/-! ## Lemmas on Go maps -/

namespace GoMap

theorem get_set (m : GoMap) (k v k' : String) :
    (m.set k v).get k' = if k' = k then some v else m.get k' := by
  unfold get set
  by_cases h : k' = k
  · subst h
    simp
  · simp [h, AList.lookup_insert_ne h]

theorem get_delete (m : GoMap) (k k' : String) :
    (m.delete k).get k' = if k' = k then none else m.get k' := by
  unfold get delete
  by_cases h : k' = k
  · subst h
    simp
  · simp [h, AList.lookup_erase_ne h]

theorem get_foldl_delete (ks : List String) (m : GoMap) (k : String) :
    (ks.foldl (fun acc k => acc.delete k) m).get k = if k ∈ ks then none else m.get k := by
  induction ks generalizing m with
  | nil => simp
  | cons a t ih =>
    rw [List.foldl_cons, ih, get_delete]
    by_cases h1 : k = a
    · subst h1
      simp
    · by_cases h2 : k ∈ t <;> simp [h1, h2]

theorem get_clear (m : GoMap) (k : String) : (clear m).get k = none := by
  unfold clear
  rw [get_foldl_delete]
  by_cases h : k ∈ m.keys
  · simp [h]
  · simp only [h, if_false]
    exact AList.lookup_eq_none.mpr (fun hm => h (AList.mem_keys.mp hm))

theorem get_foldl_set (es : List (Sigma fun _ : String => String)) (hes : es.NodupKeys)
    (m : GoMap) (k : String) :
    (es.foldl (fun acc e => acc.set e.1 e.2) m).get k
      = match es.dlookup k with
        | some v => some v
        | none => m.get k := by
  induction es generalizing m with
  | nil => simp
  | cons e t ih =>
    obtain ⟨a, b⟩ := e
    have hnk := List.nodupKeys_cons.mp hes
    rw [List.foldl_cons, ih hnk.2, get_set]
    by_cases h : k = a
    · subst h
      have hnone : List.dlookup k t = none := List.dlookup_eq_none.mpr hnk.1
      simp [hnone]
    · have hne : List.dlookup k (⟨a, b⟩ :: t) = List.dlookup k t :=
        List.dlookup_cons_ne t ⟨a, b⟩ h
      rw [hne]
      simp [h]

theorem get_assignAll (envMap m : GoMap) (k : String) :
    (assignAll envMap m).get k
      = match envMap.get k with
        | some v => some v
        | none => m.get k :=
  get_foldl_set envMap.entries envMap.nodupKeys m k

end GoMap

namespace GoMap

theorem mem_keys_iff_get (m : GoMap) (k : String) : k ∈ m.keys ↔ m.get k ≠ none := by
  unfold get
  rw [← AList.mem_keys, ne_eq, AList.lookup_eq_none, not_not]

theorem entries_perm_of_get_eq (a b : GoMap) (h : ∀ k, a.get k = b.get k) :
    a.entries.Perm b.entries := by
  apply List.lookup_ext a.nodupKeys b.nodupKeys
  intro x y
  have hx := h x
  unfold get AList.lookup at hx
  rw [hx]

end GoMap

/-! ## Theorems on the environment-variables resource -/

theorem EnvironmentVariablesResource.updateApply_get (d m : GoMap) (k : String) :
    (updateApply d m).get k = d.get k := by
  unfold updateApply
  rw [GoMap.get_assignAll, GoMap.get_clear]
  cases d.get k <;> rfl

theorem EnvironmentVariablesResource.createApply_get (d m : GoMap) (k : String) :
    (createApply d m).get k
      = match d.get k with
        | some v => some v
        | none => m.get k := by
  unfold createApply
  exact GoMap.get_assignAll d m k

theorem EnvironmentVariablesResource.createApply_keys (d m : GoMap) (k : String) :
    k ∈ (createApply d m).keys ↔ k ∈ m.keys ∨ k ∈ d.keys := by
  rw [GoMap.mem_keys_iff_get, GoMap.mem_keys_iff_get, GoMap.mem_keys_iff_get,
    EnvironmentVariablesResource.createApply_get]
  cases hd : d.get k <;> simp

theorem decodeEntries_lookup (es : List (Sigma fun _ : String => TfString)) (d : GoMap)
    (h : es.foldr
        (fun e acc =>
          match e.2, acc with
          | TfValue.known v, Except.ok m => Except.ok (GoMap.set m e.1 v)
          | _, Except.error dg => Except.error dg
          | _, Except.ok _ => Except.error [conversionError])
        (Except.ok (∅ : GoMap) : Except Diagnostics GoMap) = Except.ok d) :
    ∀ k, es.dlookup k = (d.get k).map TfValue.known := by
  induction es generalizing d with
  | nil =>
    intro k
    simp only [List.foldr_nil, Except.ok.injEq] at h
    subst h
    simp [GoMap.get]
  | cons e t ih =>
    obtain ⟨a, v⟩ := e
    rw [List.foldr_cons] at h
    intro k
    cases v with
    | null => split at h <;> simp_all
    | unknown => split at h <;> simp_all
    | known x =>
      rcases hrest : t.foldr
          (fun e acc =>
            match e.2, acc with
            | TfValue.known v, Except.ok m => Except.ok (GoMap.set m e.1 v)
            | _, Except.error dg => Except.error dg
            | _, Except.ok _ => Except.error [conversionError])
          (Except.ok (∅ : GoMap) : Except Diagnostics GoMap) with dg | m
      · rw [hrest] at h
        simp at h
      · rw [hrest] at h
        simp only [Except.ok.injEq] at h
        subst h
        rw [GoMap.get_set]
        by_cases hk : k = a
        · subst hk
          simp
        · rw [List.dlookup_cons_ne t ⟨a, TfValue.known x⟩ hk, ih m hrest k]
          simp [hk]

theorem TfMap.ElementsAs_lookup (vars : TfMap) (d : GoMap)
    (h : TfMap.ElementsAs vars = Except.ok d) :
    (vars = TfValue.null → d = ∅) ∧
    (∀ elems, vars = TfValue.known elems →
      ∀ k, elems.lookup k = (d.get k).map TfValue.known) := by
  constructor
  · intro hnull
    subst hnull
    simp only [TfMap.ElementsAs, Except.ok.injEq] at h
    exact h.symm
  · intro elems hknown
    subst hknown
    exact decodeEntries_lookup elems.entries d h

/-- C1: whenever the `variables` of the plan decode to the mapping `d` (which holds
under every key the known string the plan holds there), `Update` issues one remote
call, `UpdateApplicationEnv` for the plan's application, and the function it hands
over replaces the bag: applied to any existing bag `m` it gives a bag that holds under
every key exactly what `d` holds, so a key of `m` missing from `d` is gone, and whose
entries are those of `d` up to order. -/
theorem EnvironmentVariablesResource.Update_replaces (client : DokployClient)
    (plan state : EnvironmentVariablesResourceModel) (d : GoMap)
    (h : TfMap.ElementsAs plan.Variables = Except.ok d) :
    (∀ elems, plan.Variables = TfValue.known elems →
      ∀ k, elems.lookup k = (d.get k).map TfValue.known) ∧
    ∃ apply : GoMap → GoMap,
      (Update client plan state).Calls
        = [RemoteCall.UpdateApplicationEnv plan.ApplicationID.ValueString apply
            plan.CreateEnvFile.ValueBoolPointer] ∧
      (∀ (m : GoMap) (k : String), (apply m).get k = d.get k) ∧
      (∀ m : GoMap, (apply m).entries.Perm d.entries) := by
  refine ⟨(TfMap.ElementsAs_lookup plan.Variables d h).2, updateApply d, ?_,
    fun m k => EnvironmentVariablesResource.updateApply_get d m k,
    fun m => GoMap.entries_perm_of_get_eq _ _
      (EnvironmentVariablesResource.updateApply_get d m)⟩
  unfold Update
  simp only [h]
  split <;> rfl

/-- Witness of C1: the plan whose `variables` is `{B: 3}`; the function `Update` hands
over turns the existing bag `{A: 1, B: 2}` into `{B: 3}`. -/
theorem EnvironmentVariablesResource.Update_replaces_witness :
    TfMap.ElementsAs (sampleEnvPlan "B" "3").Variables
      = Except.ok (GoMap.ofPairs [("B", "3")]) ∧
    ∃ apply : GoMap → GoMap,
      (Update (sampleEnvClient (Except.error "") none) (sampleEnvPlan "B" "3")
          sampleEnvState).Calls
        = [RemoteCall.UpdateApplicationEnv "app-1" apply (some true)] ∧
      (apply (GoMap.ofPairs [("A", "1"), ("B", "2")])).get "A" = none ∧
      (apply (GoMap.ofPairs [("A", "1"), ("B", "2")])).get "B" = some "3" ∧
      (∀ k, (apply (GoMap.ofPairs [("A", "1"), ("B", "2")])).get k
        = (GoMap.ofPairs [("B", "3")]).get k) ∧
      (apply (GoMap.ofPairs [("A", "1"), ("B", "2")])).entries.Perm
        (GoMap.ofPairs [("B", "3")]).entries :=
  ⟨rfl,
    match (EnvironmentVariablesResource.Update_replaces
        (sampleEnvClient (Except.error "") none) (sampleEnvPlan "B" "3") sampleEnvState
        (GoMap.ofPairs [("B", "3")]) rfl).2 with
    | ⟨apply, hcalls, hget, hperm⟩ =>
      ⟨apply, hcalls, hget _ "A", hget _ "B", hget _, hperm _⟩⟩

/-- C2: whenever the `variables` of the plan decode to the mapping `d` (which holds
under every key the known string the plan holds there), `Create` issues one remote
call, `UpdateApplicationEnv` for the plan's application, and the function it hands
over merges: applied to any existing bag `m` it gives a bag whose keys are those of `m`
together with those of `d`, in which a key of `d` carries the value of `d` and any
other key carries what `m` held. -/
theorem EnvironmentVariablesResource.Create_merges (client : DokployClient)
    (plan : EnvironmentVariablesResourceModel) (d : GoMap)
    (h : TfMap.ElementsAs plan.Variables = Except.ok d) :
    (∀ elems, plan.Variables = TfValue.known elems →
      ∀ k, elems.lookup k = (d.get k).map TfValue.known) ∧
    ∃ apply : GoMap → GoMap,
      (Create client plan).Calls
        = [RemoteCall.UpdateApplicationEnv plan.ApplicationID.ValueString apply
            plan.CreateEnvFile.ValueBoolPointer] ∧
      (∀ (m : GoMap) (k : String), k ∈ (apply m).keys ↔ k ∈ m.keys ∨ k ∈ d.keys) ∧
      (∀ (m : GoMap) (k : String),
        (apply m).get k
          = match d.get k with
            | some v => some v
            | none => m.get k) := by
  refine ⟨(TfMap.ElementsAs_lookup plan.Variables d h).2, createApply d, ?_,
    fun m k => EnvironmentVariablesResource.createApply_keys d m k,
    fun m k => EnvironmentVariablesResource.createApply_get d m k⟩
  unfold Create
  simp only [h]
  split <;> rfl

/-- Witness of C2: the plan whose `variables` is `{B: 2}`; the function `Create` hands
over turns the existing bag `{A: 1}` into `{A: 1, B: 2}`. -/
theorem EnvironmentVariablesResource.Create_merges_witness :
    TfMap.ElementsAs (sampleEnvPlan "B" "2").Variables
      = Except.ok (GoMap.ofPairs [("B", "2")]) ∧
    ∃ apply : GoMap → GoMap,
      (Create (sampleEnvClient (Except.error "") none) (sampleEnvPlan "B" "2")).Calls
        = [RemoteCall.UpdateApplicationEnv "app-1" apply (some true)] ∧
      (∀ k, k ∈ (apply (GoMap.ofPairs [("A", "1")])).keys ↔ k ∈ ["A"] ∨ k ∈ ["B"]) ∧
      (apply (GoMap.ofPairs [("A", "1")])).get "A" = some "1" ∧
      (apply (GoMap.ofPairs [("A", "1")])).get "B" = some "2" :=
  ⟨rfl,
    match (EnvironmentVariablesResource.Create_merges
        (sampleEnvClient (Except.error "") none) (sampleEnvPlan "B" "2")
        (GoMap.ofPairs [("B", "2")]) rfl).2 with
    | ⟨apply, hcalls, hkeys, hget⟩ =>
      ⟨apply, hcalls, hkeys _, hget _ "A", hget _ "B"⟩⟩

/-! ## Lemmas on substring search and diagnostics -/

theorem hasSubstr_iff (sub s : List Char) :
    hasSubstr sub s = true ↔ ∃ p q, s = p ++ sub ++ q := by
  induction s with
  | nil =>
    simp only [hasSubstr, List.isPrefixOf_iff_prefix]
    constructor
    · intro h
      exact ⟨[], [], by simp [List.prefix_nil.mp h]⟩
    · rintro ⟨p, q, h⟩
      have h2 : sub = [] := by
        have := congrArg List.length h
        simp at this
        exact List.length_eq_zero.mp (by omega)
      simp [h2]
  | cons c t ih =>
    simp only [hasSubstr, Bool.or_eq_true, List.isPrefixOf_iff_prefix, ih]
    constructor
    · rintro (⟨q, hq⟩ | ⟨p, q, h⟩)
      · exact ⟨[], q, by simp [hq]⟩
      · exact ⟨c :: p, q, by simp [h]⟩
    · rintro ⟨p, q, h⟩
      cases p with
      | nil => exact Or.inl ⟨q, by simpa using h.symm⟩
      | cons a p =>
        simp only [List.cons_append, List.cons.injEq] at h
        exact Or.inr ⟨p, q, h.2⟩

theorem Diagnostics.AddError_nil (summary detail : String) :
    Diagnostics.AddError [] summary detail = [⟨Severity.Error, summary, detail⟩] := by
  simp [Diagnostics.AddError, Diagnostics.Append]

theorem Diagnostics.AddWarning_nil (summary detail : String) :
    Diagnostics.AddWarning [] summary detail = [⟨Severity.Warning, summary, detail⟩] := by
  simp [Diagnostics.AddWarning, Diagnostics.Append]

/-! ## Theorems on the database resource -/

/-- C3: when the remote read fails with error text `err`, database `Read` removes the
resource from the state and reports nothing if `err` contains "Not Found" or "404";
otherwise it reports the single error "Error reading database" with `err` verbatim as
its detail and leaves the state of the request in place. -/
theorem DatabaseResource.Read_remote_error (client : DokployClient)
    (state : DatabaseResourceModel) (err : String)
    (h : client.GetDatabase state.ID.ValueString state.Type_.ValueString
      = Except.error err) :
    ((strings.Contains err "Not Found" = true ∨ strings.Contains err "404" = true) →
      (Read client state).State = none ∧ (Read client state).Diagnostics = [] ∧
      (Read client state).Diagnostics.HasError = false) ∧
    (¬(strings.Contains err "Not Found" = true ∨ strings.Contains err "404" = true) →
      (Read client state).State = some state ∧
      (Read client state).Diagnostics
        = [⟨Severity.Error, "Error reading database", err⟩]) := by
  constructor
  · intro hm
    have hb : (strings.Contains err "Not Found" || strings.Contains err "404") = true := by
      simpa [Bool.or_eq_true] using hm
    simp [Read, h, hb, Diagnostics.HasError]
  · intro hm
    have hb : (strings.Contains err "Not Found" || strings.Contains err "404") = false := by
      rcases hc : (strings.Contains err "Not Found" || strings.Contains err "404") with _ | _
      · rfl
      · exact absurd (by simpa [Bool.or_eq_true] using hc) hm
    simp [Read, h, hb, Diagnostics.AddError_nil]

/-- Witness of C3: a remote that answers the read with "404 page not found" makes `Read`
drop the resource silently, and one that answers "connection refused" makes it report
that text and keep the state. -/
theorem DatabaseResource.Read_remote_error_witness :
    ((sampleClient (Except.error "") (Except.error "404 page not found") (Except.error "")
        none none).GetDatabase sampleState.ID.ValueString sampleState.Type_.ValueString
      = Except.error "404 page not found" ∧
    (Read (sampleClient (Except.error "") (Except.error "404 page not found")
        (Except.error "") none none) sampleState).State = none ∧
    (Read (sampleClient (Except.error "") (Except.error "404 page not found")
        (Except.error "") none none) sampleState).Diagnostics = []) ∧
    ((Read (sampleClient (Except.error "") (Except.error "connection refused")
        (Except.error "") none none) sampleState).State = some sampleState ∧
    (Read (sampleClient (Except.error "") (Except.error "connection refused")
        (Except.error "") none none) sampleState).Diagnostics
      = [⟨Severity.Error, "Error reading database", "connection refused"⟩]) :=
  ⟨⟨rfl,
    ((DatabaseResource.Read_remote_error
      (sampleClient (Except.error "") (Except.error "404 page not found")
        (Except.error "") none none) sampleState "404 page not found" rfl).1
      (Or.inr (by decide))).1,
    ((DatabaseResource.Read_remote_error
      (sampleClient (Except.error "") (Except.error "404 page not found")
        (Except.error "") none none) sampleState "404 page not found" rfl).1
      (Or.inr (by decide))).2.1⟩,
    (DatabaseResource.Read_remote_error
      (sampleClient (Except.error "") (Except.error "connection refused")
        (Except.error "") none none) sampleState "connection refused" rfl).2
      (by decide)⟩

/-- C4: when the remote delete fails with error text `err`, database `Delete` reports
nothing if `err` contains "Not Found" or "404" (the answer to deleting what is already
gone), and otherwise reports the single error "Error deleting database" with `err` as
its detail. -/
theorem DatabaseResource.Delete_remote_error (client : DokployClient)
    (state : DatabaseResourceModel) (err : String)
    (h : client.DeleteDatabaseWithType state.ID.ValueString state.Type_.ValueString
      = some err) :
    ((strings.Contains err "Not Found" = true ∨ strings.Contains err "404" = true) →
      (Delete client state).Diagnostics = [] ∧
      (Delete client state).Diagnostics.HasError = false) ∧
    (¬(strings.Contains err "Not Found" = true ∨ strings.Contains err "404" = true) →
      (Delete client state).Diagnostics
        = [⟨Severity.Error, "Error deleting database", err⟩]) := by
  constructor
  · intro hm
    have hb : (strings.Contains err "Not Found" || strings.Contains err "404") = true := by
      simpa [Bool.or_eq_true] using hm
    simp [Delete, h, hb, Diagnostics.HasError]
  · intro hm
    have hb : (strings.Contains err "Not Found" || strings.Contains err "404") = false := by
      rcases hc : (strings.Contains err "Not Found" || strings.Contains err "404") with _ | _
      · rfl
      · exact absurd (by simpa [Bool.or_eq_true] using hc) hm
    simp [Delete, h, hb, Diagnostics.AddError_nil]

/-- Witness of C4: a remote that answers the delete with "Database Not Found" makes
`Delete` finish silently, and one that answers "connection refused" makes it report
that text. -/
theorem DatabaseResource.Delete_remote_error_witness :
    ((sampleClient (Except.error "") (Except.error "") (Except.error "") none
        (some "Database Not Found")).DeleteDatabaseWithType
          sampleState.ID.ValueString sampleState.Type_.ValueString
      = some "Database Not Found" ∧
    (Delete (sampleClient (Except.error "") (Except.error "") (Except.error "") none
        (some "Database Not Found")) sampleState).Diagnostics = []) ∧
    (Delete (sampleClient (Except.error "") (Except.error "") (Except.error "") none
        (some "connection refused")) sampleState).Diagnostics
      = [⟨Severity.Error, "Error deleting database", "connection refused"⟩] :=
  ⟨⟨rfl,
    ((DatabaseResource.Delete_remote_error
      (sampleClient (Except.error "") (Except.error "") (Except.error "") none
        (some "Database Not Found")) sampleState "Database Not Found" rfl).1
      (Or.inl (by decide))).1⟩,
    (DatabaseResource.Delete_remote_error
      (sampleClient (Except.error "") (Except.error "") (Except.error "") none
        (some "connection refused")) sampleState "connection refused" rfl).2
      (by decide)⟩

/-- C5: when the argument list of the plan decodes, the primary remote update succeeds,
`redeploy_on_update` is true and the deploy call fails with text `err`, database
`Update` reports exactly one diagnostic, the warning "Database updated but redeploy
failed" with detail `err`, no error, and hands back the same state as against a remote
`other` that gives the same update result and deploys without failure. -/
theorem DatabaseResource.Update_redeploy_failure (client other : DokployClient)
    (plan state : DatabaseResourceModel) (args : GoSlice) (db : Database) (err : String)
    (hargs : TfList.ElementsAs plan.Args = Except.ok args)
    (hupdate : client.UpdateDatabase (updateDatabaseArgs plan plan.Type_.ValueString args)
      = Except.ok db)
    (hredeploy : plan.RedeployOnUpdate.ValueBool = true)
    (hdeploy : client.DeployDatabase plan.ID.ValueString plan.Type_.ValueString = some err)
    (hupdate2 : other.UpdateDatabase (updateDatabaseArgs plan plan.Type_.ValueString args)
      = Except.ok db)
    (hdeploy2 : other.DeployDatabase plan.ID.ValueString plan.Type_.ValueString = none) :
    (Update client plan state).Diagnostics
      = [⟨Severity.Warning, "Database updated but redeploy failed", err⟩] ∧
    (Update client plan state).Diagnostics.HasError = false ∧
    (Update other plan state).Diagnostics = [] ∧
    (Update client plan state).State = (Update other plan state).State := by
  simp [Update, hargs, hupdate, hredeploy, hdeploy, hupdate2, hdeploy2,
    Diagnostics.AddWarning_nil, Diagnostics.HasError]

/-- Witness of C5: the redeploying plan against a remote whose deploy call answers
"deploy timeout". -/
theorem DatabaseResource.Update_redeploy_failure_witness :
    (Update (sampleClient (Except.error "") (Except.error "")
        (Except.ok (sampleDatabase "test-postgres-db-updated")) (some "deploy timeout") none)
      sampleRedeployPlan sampleState).Diagnostics
      = [⟨Severity.Warning, "Database updated but redeploy failed", "deploy timeout"⟩] ∧
    (Update (sampleClient (Except.error "") (Except.error "")
        (Except.ok (sampleDatabase "test-postgres-db-updated")) (some "deploy timeout") none)
      sampleRedeployPlan sampleState).Diagnostics.HasError = false ∧
    (Update (sampleClient (Except.error "") (Except.error "")
        (Except.ok (sampleDatabase "test-postgres-db-updated")) none none)
      sampleRedeployPlan sampleState).Diagnostics = [] ∧
    (Update (sampleClient (Except.error "") (Except.error "")
        (Except.ok (sampleDatabase "test-postgres-db-updated")) (some "deploy timeout") none)
      sampleRedeployPlan sampleState).State
      = (Update (sampleClient (Except.error "") (Except.error "")
        (Except.ok (sampleDatabase "test-postgres-db-updated")) none none)
      sampleRedeployPlan sampleState).State :=
  DatabaseResource.Update_redeploy_failure
    (sampleClient (Except.error "") (Except.error "")
      (Except.ok (sampleDatabase "test-postgres-db-updated")) (some "deploy timeout") none)
    (sampleClient (Except.error "") (Except.error "")
      (Except.ok (sampleDatabase "test-postgres-db-updated")) none none)
    sampleRedeployPlan sampleState (some ["--max-connections=100"])
    (sampleDatabase "test-postgres-db-updated") "deploy timeout" rfl rfl rfl rfl rfl rfl

/-- C6 fails on the code: in the second step of the acceptance test (rename from
"test-postgres-db" to "test-postgres-db-updated", remote update succeeding and
returning the new name) `Update` reports nothing, reconciles the plan with the
RemoteState into a model named "test-postgres-db-updated", and hands back the prior
state, whose name is still "test-postgres-db". -/
theorem DatabaseResource.Update_persists_prior_state :
    (Update (sampleClient (Except.error "") (Except.error "")
        (Except.ok (sampleDatabase "test-postgres-db-updated")) none none)
      samplePlan sampleState).Diagnostics = [] ∧
    (Update (sampleClient (Except.error "") (Except.error "")
        (Except.ok (sampleDatabase "test-postgres-db-updated")) none none)
      samplePlan sampleState).State = some sampleState ∧
    sampleState.Name = TfValue.known "test-postgres-db" ∧
    (setModelFromDatabase samplePlan (sampleDatabase "test-postgres-db-updated")).Name
      = TfValue.known "test-postgres-db-updated" ∧
    (Update (sampleClient (Except.error "") (Except.error "")
        (Except.ok (sampleDatabase "test-postgres-db-updated")) none none)
      samplePlan sampleState).State
      ≠ some (setModelFromDatabase samplePlan (sampleDatabase "test-postgres-db-updated")) := by
  refine ⟨rfl, rfl, rfl, rfl, ?_⟩
  decide

/-- C7 as stated fails: reconciling the tracked state named "test-postgres-db" with a
RemoteState named "renamed-elsewhere" changes the required field `name`. -/
theorem DatabaseResource.setModelFromDatabase_overwrites_name :
    ¬ ∀ (model : DatabaseResourceModel) (db : Database),
      (setModelFromDatabase model db).EnvironmentID = model.EnvironmentID ∧
      (setModelFromDatabase model db).Type_ = model.Type_ ∧
      (setModelFromDatabase model db).Name = model.Name ∧
      (setModelFromDatabase model db).DatabaseName = model.DatabaseName ∧
      (setModelFromDatabase model db).DatabaseUser = model.DatabaseUser ∧
      (setModelFromDatabase model db).DatabasePassword = model.DatabasePassword := by
  intro h
  have h3 := (h sampleState (sampleDatabase "renamed-elsewhere")).2.2.1
  revert h3
  decide

/-- C7 amended: for every model and RemoteState, `setModelFromDatabase` leaves
`environment_id` and `database_password` (and `database_root_password`, `replica_sets`,
`redeploy_on_update`) as they are in the input model, and sets `type`, `name`,
`database_name` and `database_user` to the known values held by the RemoteState, so
that each of these four is unchanged exactly when the model already held that value. -/
theorem DatabaseResource.setModelFromDatabase_required_fields
    (model : DatabaseResourceModel) (db : Database) :
    ((setModelFromDatabase model db).EnvironmentID = model.EnvironmentID ∧
      (setModelFromDatabase model db).DatabasePassword = model.DatabasePassword ∧
      (setModelFromDatabase model db).DatabaseRootPassword = model.DatabaseRootPassword ∧
      (setModelFromDatabase model db).ReplicaSets = model.ReplicaSets ∧
      (setModelFromDatabase model db).RedeployOnUpdate = model.RedeployOnUpdate) ∧
    ((setModelFromDatabase model db).Type_ = TfValue.known db.Type_ ∧
      (setModelFromDatabase model db).Name = TfValue.known db.Name ∧
      (setModelFromDatabase model db).DatabaseName = TfValue.known db.DatabaseName ∧
      (setModelFromDatabase model db).DatabaseUser = TfValue.known db.DatabaseUser) ∧
    (((setModelFromDatabase model db).Type_ = model.Type_ ↔
        model.Type_ = TfValue.known db.Type_) ∧
      ((setModelFromDatabase model db).Name = model.Name ↔
        model.Name = TfValue.known db.Name) ∧
      ((setModelFromDatabase model db).DatabaseName = model.DatabaseName ↔
        model.DatabaseName = TfValue.known db.DatabaseName) ∧
      ((setModelFromDatabase model db).DatabaseUser = model.DatabaseUser ↔
        model.DatabaseUser = TfValue.known db.DatabaseUser)) := by
  have hset : (setModelFromDatabase model db).Type_ = TfValue.known db.Type_ ∧
      (setModelFromDatabase model db).Name = TfValue.known db.Name ∧
      (setModelFromDatabase model db).DatabaseName = TfValue.known db.DatabaseName ∧
      (setModelFromDatabase model db).DatabaseUser = TfValue.known db.DatabaseUser := by
    unfold setModelFromDatabase
    split <;> simp [types.StringValue]
  refine ⟨?_, hset, ?_⟩
  · unfold setModelFromDatabase
    split <;> simp
  · rw [hset.1, hset.2.1, hset.2.2.1, hset.2.2.2]
    exact ⟨eq_comm, eq_comm, eq_comm, eq_comm⟩

/-- C8 as stated fails: a model whose `args` is the present, empty list, reconciled
with a RemoteState that holds one argument, keeps the present, empty list. -/
theorem DatabaseResource.setModelFromDatabase_keeps_empty_args :
    ¬ ∀ (model : DatabaseResourceModel) (db : Database),
      (setModelFromDatabase model db).Args ≠ TfValue.known [] := by
  intro h
  exact h { sampleState with Args := TfValue.known [] }
    { sampleDatabase "test-postgres-db" with Args := some ["--max-connections=100"] }
    (by decide)

/-- C8 amended: for every model and RemoteState, after `setModelFromDatabase` the field
`args` is the null list when the argument sequence of the RemoteState is nil or empty,
and is the `args` of the input model otherwise; so it is a present, empty list exactly
when the input model held one and the RemoteState holds a non-empty sequence. -/
theorem DatabaseResource.setModelFromDatabase_args
    (model : DatabaseResourceModel) (db : Database) :
    (setModelFromDatabase model db).Args
      = (if db.Args.len = 0 then TfValue.null else model.Args) ∧
    ((setModelFromDatabase model db).Args = TfValue.known [] ↔
      model.Args = TfValue.known [] ∧ db.Args.len ≠ 0) := by
  have hnil : db.Args = none → db.Args.len = 0 := by
    intro hn
    rw [hn]
    rfl
  have key : (setModelFromDatabase model db).Args
      = (if db.Args.len = 0 then TfValue.null else model.Args) := by
    unfold setModelFromDatabase
    by_cases hlen : db.Args.len = 0
    · simp [hlen, types.ListNull]
    · have hne : ¬ db.Args = none := fun hn => hlen (hnil hn)
      simp [hlen, hne]
  refine ⟨key, ?_⟩
  rw [key]
  by_cases hlen : db.Args.len = 0
  · simp [hlen]
  · simp [hlen]

/-- C9: every remote create call that database `Create` issues carries as application
name the plan's `app_name` when that is neither null nor unknown and the plan's `name`
otherwise, and carries the plan's `name` as display name. -/
theorem DatabaseResource.Create_application_name (client : DokployClient)
    (plan : DatabaseResourceModel) (a : CreateDatabaseArgs)
    (h : RemoteCall.CreateDatabase a ∈ (Create client plan).Calls) :
    a.appName
      = (if plan.AppName.IsNull = false ∧ plan.AppName.IsUnknown = false
          then plan.AppName.ValueString else plan.Name.ValueString) ∧
    a.name = plan.Name.ValueString := by
  unfold Create at h
  simp only at h
  split at h
  · simp at h
  · split at h
    all_goals
      simp only [List.mem_singleton, RemoteCall.CreateDatabase.injEq] at h
      subst h
      cases hA : plan.AppName <;>
        simp [createDatabaseArgs, TfValue.IsNull, TfValue.IsUnknown, TfValue.ValueString]

/-- Witness of C9: the renaming plan, whose `app_name` is known, and the bare plan,
whose `app_name` is unknown and whose `name` is "test-postgres-db". -/
theorem DatabaseResource.Create_application_name_witness :
    RemoteCall.CreateDatabase (createDatabaseArgs samplePlan "postgres"
        "test-postgres-db-updated" (some ["--max-connections=100"]))
      ∈ (Create (sampleClient (Except.ok (sampleDatabase "test-postgres-db-updated"))
          (Except.error "") (Except.error "") none none) samplePlan).Calls ∧
    ((createDatabaseArgs samplePlan "postgres" "test-postgres-db-updated"
        (some ["--max-connections=100"])).appName = "test-postgres-db-updated" ∧
      (createDatabaseArgs samplePlan "postgres" "test-postgres-db-updated"
        (some ["--max-connections=100"])).name = "test-postgres-db-updated") ∧
    ((createDatabaseArgs sampleBarePlan "postgres" "test-postgres-db" none).appName
        = "test-postgres-db" ∧
      (createDatabaseArgs sampleBarePlan "postgres" "test-postgres-db" none).name
        = "test-postgres-db") :=
  ⟨List.Mem.head _,
    DatabaseResource.Create_application_name
      (sampleClient (Except.ok (sampleDatabase "test-postgres-db-updated")) (Except.error "")
        (Except.error "") none none)
      samplePlan
      (createDatabaseArgs samplePlan "postgres" "test-postgres-db-updated"
        (some ["--max-connections=100"])) (List.Mem.head _),
    DatabaseResource.Create_application_name
      (sampleClient (Except.error "remote refused") (Except.error "")
        (Except.error "") none none)
      sampleBarePlan
      (createDatabaseArgs sampleBarePlan "postgres" "test-postgres-db" none)
      (List.Mem.head _)⟩

/-- C10: for every plan whose `args` is null, unknown or the empty list, database
`Create` issues exactly one remote call, the create call, with an argument sequence of
length zero, and the only diagnostic it can report is the error of that remote call:
none when the remote succeeds, in which case the reconciled plan is handed back. -/
theorem DatabaseResource.Create_accepts_empty_args (client : DokployClient)
    (plan : DatabaseResourceModel)
    (h : plan.Args = TfValue.null ∨ plan.Args = TfValue.unknown ∨
      plan.Args = TfValue.known []) :
    ∃ a : CreateDatabaseArgs,
      (Create client plan).Calls = [RemoteCall.CreateDatabase a] ∧
      a.args.len = 0 ∧
      (∀ db, client.CreateDatabase a = Except.ok db →
        (Create client plan).Diagnostics = [] ∧
        (Create client plan).State = some (setModelFromDatabase plan db)) ∧
      (∀ err, client.CreateDatabase a = Except.error err →
        (Create client plan).Diagnostics
          = [⟨Severity.Error, "Error creating database", err⟩]) := by
  have hdec : ∃ args : GoSlice, args.len = 0 ∧
      (if !plan.Args.IsNull && !plan.Args.IsUnknown then TfList.ElementsAs plan.Args
        else Except.ok none) = Except.ok args := by
    rcases h with h | h | h
    · exact ⟨none, rfl, by rw [h]; rfl⟩
    · exact ⟨none, rfl, by rw [h]; rfl⟩
    · exact ⟨some [], rfl, by rw [h]; rfl⟩
  obtain ⟨args, hlen, hargs⟩ := hdec
  refine ⟨createDatabaseArgs plan plan.Type_.ValueString
    (if !plan.AppName.IsNull && !plan.AppName.IsUnknown then plan.AppName.ValueString
      else plan.Name.ValueString) args, ?_, hlen, ?_, ?_⟩
  · unfold Create
    simp only [hargs]
    split <;> rfl
  · intro db hdb
    unfold Create
    simp only [hargs, hdb]
    simp
  · intro err herr
    unfold Create
    simp only [hargs, herr]
    exact Diagnostics.AddError_nil _ _

/-- Witness of C10: the plan whose `args` is the empty list, against a remote that creates
the database. -/
theorem DatabaseResource.Create_accepts_empty_args_witness :
    ∃ a : CreateDatabaseArgs,
      (Create (sampleClient (Except.ok (sampleDatabase "test-postgres-db")) (Except.error "")
        (Except.error "") none none) sampleEmptyArgsPlan).Calls = [RemoteCall.CreateDatabase a] ∧
      a.args.len = 0 ∧
      (∀ db, (sampleClient (Except.ok (sampleDatabase "test-postgres-db")) (Except.error "")
          (Except.error "") none none).CreateDatabase a = Except.ok db →
        (Create (sampleClient (Except.ok (sampleDatabase "test-postgres-db"))
          (Except.error "") (Except.error "") none none) sampleEmptyArgsPlan).Diagnostics = [] ∧
        (Create (sampleClient (Except.ok (sampleDatabase "test-postgres-db"))
          (Except.error "") (Except.error "") none none) sampleEmptyArgsPlan).State
          = some (setModelFromDatabase sampleEmptyArgsPlan db)) ∧
      (∀ err, (sampleClient (Except.ok (sampleDatabase "test-postgres-db")) (Except.error "")
          (Except.error "") none none).CreateDatabase a = Except.error err →
        (Create (sampleClient (Except.ok (sampleDatabase "test-postgres-db"))
          (Except.error "") (Except.error "") none none) sampleEmptyArgsPlan).Diagnostics
          = [⟨Severity.Error, "Error creating database", err⟩]) :=
  DatabaseResource.Create_accepts_empty_args
    (sampleClient (Except.ok (sampleDatabase "test-postgres-db")) (Except.error "")
      (Except.error "") none none)
    sampleEmptyArgsPlan (Or.inr (Or.inr rfl))

/-! ## Further theorems on the environment-variables resource -/

theorem GoMap.eq_empty_of_get_eq_none (m : GoMap) (h : ∀ k, m.get k = none) : m = ∅ := by
  apply AList.ext
  rw [AList.empty_entries, List.eq_nil_iff_forall_not_mem]
  rintro ⟨a, b⟩ hmem
  have hsome : b ∈ AList.lookup a m := AList.mem_lookup_iff.mpr hmem
  have hnone : AList.lookup a m = none := h a
  rw [hnone] at hsome
  exact Option.not_mem_none b hsome

theorem GoMap.clear_eq_empty (m : GoMap) : GoMap.clear m = ∅ :=
  GoMap.eq_empty_of_get_eq_none _ (GoMap.get_clear m)

/-- C11: `Delete` hands `UpdateApplicationEnv` the function `deleteApply`, which turns
every bag into the empty bag: no key is left, the empty bag stays empty, and applying
the function twice gives what applying it once gives. -/
theorem EnvironmentVariablesResource.deleteApply_clears :
    (∀ (client : DokployClient) (state : EnvironmentVariablesResourceModel),
      (Delete client state).Calls
        = [RemoteCall.UpdateApplicationEnv state.ApplicationID.ValueString deleteApply
            state.CreateEnvFile.ValueBoolPointer]) ∧
    (∀ m : GoMap, deleteApply m = ∅) ∧
    (∀ (m : GoMap) (k : String), (deleteApply m).get k = none) ∧
    deleteApply ∅ = ∅ ∧
    (∀ m : GoMap, deleteApply (deleteApply m) = deleteApply m) ∧
    deleteApply (GoMap.ofPairs [("A", "1"), ("B", "2")]) = ∅ := by
  have hempty : ∀ m : GoMap, deleteApply m = ∅ := fun m => GoMap.clear_eq_empty m
  refine ⟨?_, hempty, fun m k => GoMap.get_clear m k, hempty ∅, ?_, rfl⟩
  · intro client state
    unfold Delete
    simp only
    split
    · split <;> rfl
    · rfl
  · intro m
    rw [hempty m, hempty ∅]

theorem EnvironmentVariablesResource.Create_state_id (client : DokployClient)
    (plan s : EnvironmentVariablesResourceModel) (h : (Create client plan).State = some s) :
    s.ID = s.ApplicationID := by
  unfold Create at h
  split at h
  · simp at h
  · split at h
    · simp at h
    · simp only [Option.some.injEq] at h
      subst h
      rfl

theorem EnvironmentVariablesResource.Update_state_id (client : DokployClient)
    (plan state s : EnvironmentVariablesResourceModel) (envMap : GoMap)
    (hvars : TfMap.ElementsAs plan.Variables = Except.ok envMap)
    (hremote : client.UpdateApplicationEnv plan.ApplicationID.ValueString
      (updateApply envMap) plan.CreateEnvFile.ValueBoolPointer = none)
    (h : (Update client plan state).State = some s) :
    s.ID = s.ApplicationID := by
  unfold Update at h
  simp only [hvars, hremote, Option.some.injEq] at h
  subst h
  rfl

theorem EnvironmentVariablesResource.Read_state_id (ParseEnv : String → Option GoMap)
    (client : DokployClient) (state s : EnvironmentVariablesResourceModel)
    (h : (Read ParseEnv client state).State = some s) :
    s.ID = state.ID ∧ s.ApplicationID = state.ApplicationID := by
  unfold Read at h
  simp only at h
  split at h
  · split at h
    · simp at h
    · simp only [Option.some.injEq] at h
      subst h
      exact ⟨rfl, rfl⟩
  · simp only [Option.some.injEq] at h
    subst h
    exact ⟨rfl, rfl⟩

/-- C12 fails on the code after an import: importing the application identifier
"app-1" gives a state whose `id` is null, and the `Read` that follows, against a
remote that returns the application, reports nothing and hands back a state whose
`application_id` is "app-1" and whose `id` is still null. -/
theorem EnvironmentVariablesResource.Read_after_import_null_id :
    (ImportState "app-1").ID = TfValue.null ∧
    (Read sampleParseEnv (sampleEnvClient (Except.ok { Env := "FOO=bar" }) none)
      (ImportState "app-1")).Diagnostics = [] ∧
    (Read sampleParseEnv (sampleEnvClient (Except.ok { Env := "FOO=bar" }) none)
      (ImportState "app-1")).State.map (fun s => s.ApplicationID)
      = some (TfValue.known "app-1") ∧
    (Read sampleParseEnv (sampleEnvClient (Except.ok { Env := "FOO=bar" }) none)
      (ImportState "app-1")).State.map (fun s => s.ID) = some TfValue.null ∧
    (Read sampleParseEnv (sampleEnvClient (Except.ok { Env := "FOO=bar" }) none)
      (ImportState "app-1")).State.map (fun s => s.ID)
      ≠ (Read sampleParseEnv (sampleEnvClient (Except.ok { Env := "FOO=bar" }) none)
        (ImportState "app-1")).State.map (fun s => s.ApplicationID) := by
  refine ⟨rfl, rfl, rfl, rfl, ?_⟩
  decide

theorem lookup_foldr_insert_known (es : List (Sigma fun _ : String => String)) (k : String) :
    AList.lookup k
        (es.foldr (fun e acc => AList.insert e.1 (TfValue.known e.2) acc)
          (∅ : AList (fun _ : String => TfString)))
      = (es.dlookup k).map TfValue.known := by
  induction es with
  | nil => simp
  | cons e t ih =>
    obtain ⟨a, b⟩ := e
    rw [List.foldr_cons]
    by_cases h : k = a
    · subst h
      simp
    · rw [AList.lookup_insert_ne h, ih, List.dlookup_cons_ne t ⟨a, b⟩ h]

theorem types.MapValueFrom_lookup (envMap : GoMap) :
    ∃ elems : AList (fun _ : String => TfString),
      types.MapValueFrom (some envMap) = TfValue.known elems ∧
      ∀ k, elems.lookup k = (envMap.get k).map TfValue.known :=
  ⟨_, rfl, fun k => lookup_foldr_insert_known envMap.entries k⟩

/-- C13: when the remote returns the application `app`, environment-variable `Read`
reports nothing and hands back a state whose `create_env_file` and `application_id`
(and `id`) are those of the input state and whose `variables` is what
`types.MapValueFrom` makes of the mapping decoded from `app.Env`, whatever was tracked
before: the known map holding, under every key, exactly what the decoded mapping holds
when that mapping is not nil, and the null map when it is nil. -/
theorem EnvironmentVariablesResource.Read_success (ParseEnv : String → Option GoMap)
    (client : DokployClient) (state : EnvironmentVariablesResourceModel) (app : Application)
    (h : client.GetApplication state.ApplicationID.ValueString = Except.ok app) :
    (Read ParseEnv client state).Diagnostics = [] ∧
    ∃ s : EnvironmentVariablesResourceModel,
      (Read ParseEnv client state).State = some s ∧
      s.CreateEnvFile = state.CreateEnvFile ∧
      s.ApplicationID = state.ApplicationID ∧
      s.ID = state.ID ∧
      s.Variables = types.MapValueFrom (ParseEnv app.Env) ∧
      (∀ envMap : GoMap, ParseEnv app.Env = some envMap →
        ∃ elems : AList (fun _ : String => TfString),
          s.Variables = TfValue.known elems ∧
          ∀ k, elems.lookup k = (envMap.get k).map TfValue.known) ∧
      (ParseEnv app.Env = none → s.Variables = TfValue.null) := by
  refine ⟨by simp [Read, h], { state with Variables := types.MapValueFrom (ParseEnv app.Env) },
    by simp [Read, h], rfl, rfl, rfl, rfl, ?_, ?_⟩
  · intro envMap hmap
    obtain ⟨elems, helems, hlookup⟩ := types.MapValueFrom_lookup envMap
    exact ⟨elems, by simp only [hmap, helems], hlookup⟩
  · intro hnil
    simp only [hnil]
    rfl

/-- Witness of C13: the tracked set `{OLD: stale}` of application `app-1`, read against
a remote whose application carries the block `FOO=bar`, which decodes to `{FOO: bar}`,
and against one whose application carries the empty text, which decodes to the nil
map. -/
theorem EnvironmentVariablesResource.Read_success_witness :
    ((sampleEnvClient (Except.ok { Env := "FOO=bar" }) none).GetApplication
        sampleEnvState.ApplicationID.ValueString = Except.ok { Env := "FOO=bar" } ∧
    (Read sampleParseEnv (sampleEnvClient (Except.ok { Env := "FOO=bar" }) none)
      sampleEnvState).Diagnostics = [] ∧
    ∃ s : EnvironmentVariablesResourceModel,
      (Read sampleParseEnv (sampleEnvClient (Except.ok { Env := "FOO=bar" }) none)
        sampleEnvState).State = some s ∧
      s.CreateEnvFile = TfValue.known false ∧
      s.ApplicationID = TfValue.known "app-1" ∧
      s.ID = TfValue.known "app-1" ∧
      s.Variables = types.MapValueFrom (some (GoMap.ofPairs [("FOO", "bar")])) ∧
      (∀ envMap : GoMap, some (GoMap.ofPairs [("FOO", "bar")]) = some envMap →
        ∃ elems : AList (fun _ : String => TfString),
          s.Variables = TfValue.known elems ∧
          ∀ k, elems.lookup k = (envMap.get k).map TfValue.known) ∧
      (some (GoMap.ofPairs [("FOO", "bar")]) = none → s.Variables = TfValue.null)) ∧
    (∃ s : EnvironmentVariablesResourceModel,
      (Read sampleParseEnv (sampleEnvClient (Except.ok { Env := "" }) none)
        sampleEnvState).State = some s ∧
      s.CreateEnvFile = TfValue.known false ∧
      s.ApplicationID = TfValue.known "app-1" ∧
      s.Variables = TfValue.null) :=
  ⟨⟨rfl,
      EnvironmentVariablesResource.Read_success sampleParseEnv
        (sampleEnvClient (Except.ok { Env := "FOO=bar" }) none) sampleEnvState
        { Env := "FOO=bar" } rfl⟩,
    match (EnvironmentVariablesResource.Read_success sampleParseEnv
        (sampleEnvClient (Except.ok { Env := "" }) none) sampleEnvState
        { Env := "" } rfl).2 with
    | ⟨s, hs, hfile, happ, _, _, _, hnil⟩ => ⟨s, hs, hfile, happ, hnil rfl⟩⟩

/-! ## Further theorems on the database resource -/

theorem DatabaseResource.Update_decode_error (client : DokployClient)
    (plan state : DatabaseResourceModel) (diags : Diagnostics)
    (hargs : TfList.ElementsAs plan.Args = Except.error diags) :
    Update client plan state
      = { State := some state, Diagnostics := Diagnostics.Append [] diags, Calls := [] } := by
  unfold Update
  simp only [hargs]

theorem DatabaseResource.Update_remote_error (client : DokployClient)
    (plan state : DatabaseResourceModel) (args : GoSlice) (err : String)
    (hargs : TfList.ElementsAs plan.Args = Except.ok args)
    (hupd : client.UpdateDatabase (updateDatabaseArgs plan plan.Type_.ValueString args)
      = Except.error err) :
    Update client plan state
      = { State := some state
          Diagnostics := [⟨Severity.Error, "Error updating database", err⟩]
          Calls := [RemoteCall.UpdateDatabase
            (updateDatabaseArgs plan plan.Type_.ValueString args)] } := by
  unfold Update
  simp only [hargs, hupd, Diagnostics.AddError_nil]

theorem DatabaseResource.Update_remote_ok_calls (client : DokployClient)
    (plan state : DatabaseResourceModel) (args : GoSlice) (db : Database)
    (hargs : TfList.ElementsAs plan.Args = Except.ok args)
    (hupd : client.UpdateDatabase (updateDatabaseArgs plan plan.Type_.ValueString args)
      = Except.ok db) :
    (Update client plan state).Calls
      = RemoteCall.UpdateDatabase (updateDatabaseArgs plan plan.Type_.ValueString args)
        :: (if plan.RedeployOnUpdate.ValueBool = true
            then [RemoteCall.DeployDatabase plan.ID.ValueString plan.Type_.ValueString]
            else []) := by
  unfold Update
  simp only [hargs, hupd]
  cases plan.RedeployOnUpdate.ValueBool
  · simp
  · cases client.DeployDatabase plan.ID.ValueString plan.Type_.ValueString <;> simp

/-- C14: database `Update` issues a deploy call exactly when the argument list of the
plan decodes, the primary remote update succeeds and `redeploy_on_update` is true; a
deploy call, when issued, is the one call after the update call and carries the ID and
variant the update call carried; and when the primary update fails with text `err`,
`Update` reports the single error "Error updating database" with detail `err`, issues
the update call only, and leaves the prior state in the response. -/
theorem DatabaseResource.Update_deploy_call (client : DokployClient)
    (plan state : DatabaseResourceModel) :
    ((∃ id dbType, RemoteCall.DeployDatabase id dbType ∈ (Update client plan state).Calls) ↔
      ((∃ args db, TfList.ElementsAs plan.Args = Except.ok args ∧
          client.UpdateDatabase (updateDatabaseArgs plan plan.Type_.ValueString args)
            = Except.ok db) ∧
        plan.RedeployOnUpdate.ValueBool = true)) ∧
    (∀ id dbType, RemoteCall.DeployDatabase id dbType ∈ (Update client plan state).Calls →
      ∃ a : UpdateDatabaseArgs,
        (Update client plan state).Calls
          = [RemoteCall.UpdateDatabase a, RemoteCall.DeployDatabase id dbType] ∧
        id = a.id ∧ dbType = a.dbType ∧
        id = plan.ID.ValueString ∧ dbType = plan.Type_.ValueString) ∧
    (∀ args err, TfList.ElementsAs plan.Args = Except.ok args →
      client.UpdateDatabase (updateDatabaseArgs plan plan.Type_.ValueString args)
        = Except.error err →
      (Update client plan state).Diagnostics
        = [⟨Severity.Error, "Error updating database", err⟩] ∧
      (Update client plan state).Calls
        = [RemoteCall.UpdateDatabase
            (updateDatabaseArgs plan plan.Type_.ValueString args)] ∧
      (Update client plan state).State = some state) := by
  rcases hargs : TfList.ElementsAs plan.Args with diags | args
  · rw [DatabaseResource.Update_decode_error client plan state diags hargs]
    refine ⟨⟨?_, ?_⟩, ?_, ?_⟩
    · rintro ⟨id, t, hmem⟩
      simp at hmem
    · rintro ⟨⟨args, db, h1, _⟩, _⟩
      simp at h1
    · intro id t hmem
      simp at hmem
    · intro args err h1
      simp at h1
  · rcases hupd : client.UpdateDatabase
        (updateDatabaseArgs plan plan.Type_.ValueString args) with err | db
    · rw [DatabaseResource.Update_remote_error client plan state args err hargs hupd]
      refine ⟨⟨?_, ?_⟩, ?_, ?_⟩
      · rintro ⟨id, t, hmem⟩
        simp at hmem
      · rintro ⟨⟨args2, db, h1, h2⟩, _⟩
        simp only [Except.ok.injEq] at h1
        subst h1
        rw [hupd] at h2
        simp at h2
      · intro id t hmem
        simp at hmem
      · intro args2 err2 h1 h2
        simp only [Except.ok.injEq] at h1
        subst h1
        rw [hupd] at h2
        simp only [Except.error.injEq] at h2
        subst h2
        exact ⟨rfl, rfl, rfl⟩
    · have hcalls :=
        DatabaseResource.Update_remote_ok_calls client plan state args db hargs hupd
      rw [hcalls]
      refine ⟨⟨?_, ?_⟩, ?_, ?_⟩
      · rintro ⟨id, t, hmem⟩
        refine ⟨⟨args, db, rfl, hupd⟩, ?_⟩
        by_contra hre
        simp [hre] at hmem
      · rintro ⟨_, hre⟩
        exact ⟨plan.ID.ValueString, plan.Type_.ValueString, by simp [hre]⟩
      · intro id t hmem
        by_cases hre : plan.RedeployOnUpdate.ValueBool = true
        · simp only [hre, if_true, List.mem_cons, List.mem_singleton,
            RemoteCall.DeployDatabase.injEq, List.not_mem_nil, or_false] at hmem
          rcases hmem with hmem | ⟨h1, h2⟩
          · exact absurd hmem (by simp)
          · subst h1
            subst h2
            exact ⟨updateDatabaseArgs plan plan.Type_.ValueString args, by simp [hre],
              rfl, rfl, rfl, rfl⟩
        · simp [hre] at hmem
      · intro args2 err2 h1 h2
        simp only [Except.ok.injEq] at h1
        subst h1
        rw [hupd] at h2
        simp at h2

/-- Witness of C14: the redeploying plan against a remote whose update succeeds issues a
deploy call; the renaming plan against a remote whose update answers "remote refused"
reports that text as an error, issues the update call only and keeps the prior state. -/
theorem DatabaseResource.Update_deploy_call_witness :
    (∃ id dbType, RemoteCall.DeployDatabase id dbType
      ∈ (Update (sampleClient (Except.error "") (Except.error "")
          (Except.ok (sampleDatabase "test-postgres-db-updated")) none none)
        sampleRedeployPlan sampleState).Calls) ∧
    ((Update (sampleClient (Except.error "") (Except.error "")
        (Except.error "remote refused") none none) samplePlan sampleState).Diagnostics
        = [⟨Severity.Error, "Error updating database", "remote refused"⟩] ∧
      (Update (sampleClient (Except.error "") (Except.error "")
        (Except.error "remote refused") none none) samplePlan sampleState).Calls
        = [RemoteCall.UpdateDatabase
            (updateDatabaseArgs samplePlan "postgres" (some ["--max-connections=100"]))] ∧
      (Update (sampleClient (Except.error "") (Except.error "")
        (Except.error "remote refused") none none) samplePlan sampleState).State
        = some sampleState) :=
  ⟨(DatabaseResource.Update_deploy_call
      (sampleClient (Except.error "") (Except.error "")
        (Except.ok (sampleDatabase "test-postgres-db-updated")) none none)
      sampleRedeployPlan sampleState).1.mpr
      ⟨⟨some ["--max-connections=100"], sampleDatabase "test-postgres-db-updated", rfl, rfl⟩,
        rfl⟩,
    (DatabaseResource.Update_deploy_call
      (sampleClient (Except.error "") (Except.error "")
        (Except.error "remote refused") none none)
      samplePlan sampleState).2.2 (some ["--max-connections=100"]) "remote refused" rfl rfl⟩
